import Mathlib

/-!
Shallow embedding of the telemetry persistence layer implemented in
src/network_systems/projects/remote_transceiver/src/sailbot_db.cpp
(class SailbotDB).

Modelling decisions, all driven by the source:
* BSON documents are ordered lists of (field name, value) pairs, which is
  exactly the shape the bsoncxx stream builder produces.  The source never
  nests an array inside an array; every array element is a flat document of
  scalar fields, so arrays carry flat documents.
* C++ doubles are carried through the serializers without any arithmetic,
  so they are modelled by an arbitrary carrier with decidable equality; we
  use Rat so that concrete examples evaluate by decide/rfl.
* uint32_t values are Nats (with a < 2^32 side condition where relevant);
  static_cast<int64_t> on a uint32_t is modelled by the two's-complement
  reinterpretation toSigned 64, and static_cast<int16_t> by wrapToInt16.
* insert_one against the store is modelled by an acknowledgment oracle
  ack : Nat -> Bool consulted at a running insert counter (tick): an acked
  insert appends the document to the store and returns true, an unacked
  one appends nothing and returns false.  This matches the spec's account
  of a failed insert (the failing category is not committed).
-/

namespace SailbotDB

/-- Carrier for C++ double values.  The serializers only pass doubles through
(no arithmetic), so any carrier with decidable equality is faithful; Rat keeps
concrete examples computable. -/
abbrev Double := Rat

/-- Scalar BSON values produced by the stream builder in sailbot_db.cpp:
strings, doubles, int64 (from static_cast<int64_t>) and int32 (an int16_t
streamed into BSON is stored as a 32-bit integer). -/
inductive BsonScalar where
  | str (s : String)
  | double (d : Double)
  | int64 (i : Int)
  | int32 (i : Int)
deriving DecidableEq, Repr

/-- A flat BSON document: ordered field list, scalar values only.  Every
array element built by the source has this shape. -/
abbrev FlatDoc := List (String × BsonScalar)

/-- A BSON value at the top level of a document: a scalar or an array of
flat sub-documents (open_array ... close_array in the source). -/
inductive BsonValue where
  | scalar (v : BsonScalar)
  | array (docs : List FlatDoc)
deriving DecidableEq, Repr

/-- A top-level BSON document as built by bstream::document. -/
abbrev BsonDoc := List (String × BsonValue)

/-- Two's-complement reinterpretation of a nonnegative bit pattern as a
signed w-bit integer: the semantics of static_cast to a signed w-bit type
from an unsigned value. -/
def toSigned (w : Nat) (v : Nat) : Int :=
  let r := v % 2 ^ w
  if r < 2 ^ (w - 1) then (r : Int) else (r : Int) - 2 ^ w

/-- static_cast<int16_t> applied to a (possibly wider, possibly negative)
integer value: modular reduction into [-2^15, 2^15). -/
def wrapToInt16 (v : Int) : Int :=
  (v + 2 ^ 15) % 2 ^ 16 - 2 ^ 15

/-- GPS reading (Sensors::Gps): latitude, longitude, speed, heading. -/
structure GpsReading where
  latitude : Double
  longitude : Double
  speed : Double
  heading : Double
deriving DecidableEq, Repr

/-- AIS ship reading (Sensors::Ais): uint32 id plus floating-point fields. -/
structure AisShipReading where
  id : Nat
  latitude : Double
  longitude : Double
  sog : Double
  cog : Double
  rot : Double
  width : Double
  length : Double
deriving DecidableEq, Repr

/-- Generic sensor reading (Sensors::Generic): uint32 id and uint32 data. -/
structure GenericSensorReading where
  id : Nat
  data : Nat
deriving DecidableEq, Repr

/-- Battery reading (Sensors::Battery): voltage and current. -/
structure BatteryReading where
  voltage : Double
  current : Double
deriving DecidableEq, Repr

/-- Wind sensor reading (Sensors::Wind): speed plus a wider signed integer
direction that the serializer narrows with static_cast<int16_t>. -/
structure WindSensorReading where
  speed : Double
  direction : Int
deriving DecidableEq, Repr

/-- Waypoint (Polaris::Waypoint): latitude and longitude. -/
structure Waypoint where
  latitude : Double
  longitude : Double
deriving DecidableEq, Repr

/-- Path reading (Sensors::Path): ordered waypoint list. -/
structure PathReading where
  waypoints : List Waypoint
deriving DecidableEq, Repr

/-- The decoded snapshot (Polaris::Sensors) consumed by storeNewSensors. -/
structure Sensors where
  gps : GpsReading
  ais_ships : List AisShipReading
  data_sensors : List GenericSensorReading
  batteries : List BatteryReading
  wind_sensors : List WindSensorReading
  local_path_data : PathReading
deriving DecidableEq, Repr

/-- Receipt metadata (RcvdMsgInfo); only the timestamp string is used. -/
structure RcvdMsgInfo where
  timestamp_ : String
deriving DecidableEq, Repr

/-- Modelled from the spec: the collection name constants COLLECTION_GPS,
COLLECTION_AIS_SHIPS, COLLECTION_DATA_SENSORS, COLLECTION_BATTERIES,
COLLECTION_WIND_SENSORS, COLLECTION_LOCAL_PATH are declared in sailbot_db.h,
which is not among the provided sources; their string values are taken from
the spec's collection table (gps, ais_ships, data_sensors, batteries,
wind_sensors, local_path). -/
def COLLECTION_GPS : String := "gps"

/-- Modelled from the spec: see COLLECTION_GPS. -/
def COLLECTION_AIS_SHIPS : String := "ais_ships"

/-- Modelled from the spec: see COLLECTION_GPS. -/
def COLLECTION_DATA_SENSORS : String := "data_sensors"

/-- Modelled from the spec: see COLLECTION_GPS. -/
def COLLECTION_BATTERIES : String := "batteries"

/-- Modelled from the spec: see COLLECTION_GPS. -/
def COLLECTION_WIND_SENSORS : String := "wind_sensors"

/-- Modelled from the spec: see COLLECTION_GPS. -/
def COLLECTION_LOCAL_PATH : String := "local_path"

/-- State of the backing store: the persisted documents in insertion order
(tagged with their collection) and a running insert counter. -/
structure DBState where
  docs : List (String × BsonDoc)
  tick : Nat
deriving DecidableEq, Repr

/-- One insert_one call: the acknowledgment oracle decides, at the current
insert counter, whether the store acknowledges the write.  An acknowledged
insert persists the document; an unacknowledged one persists nothing.  The
boolean result is the static_cast<bool> of the returned optional. -/
def insertOne (ack : Nat → Bool) (coll : String) (doc : BsonDoc) (s : DBState) :
    Bool × DBState :=
  if ack s.tick then
    (true, ⟨s.docs ++ [(coll, doc)], s.tick + 1⟩)
  else
    (false, ⟨s.docs, s.tick + 1⟩)

/-- Document built by SailbotDB::storeGps. -/
def gpsDoc (gps_pb : GpsReading) (timestamp : String) : BsonDoc :=
  [("latitude", .scalar (.double gps_pb.latitude)),
   ("longitude", .scalar (.double gps_pb.longitude)),
   ("speed", .scalar (.double gps_pb.speed)),
   ("heading", .scalar (.double gps_pb.heading)),
   ("timestamp", .scalar (.str timestamp))]

/-- SailbotDB::storeGps: build the GPS document and insert it into the gps
collection. -/
def storeGps (ack : Nat → Bool) (gps_pb : GpsReading) (timestamp : String)
    (s : DBState) : Bool × DBState :=
  insertOne ack COLLECTION_GPS (gpsDoc gps_pb timestamp) s

/-- Per-ship sub-document built inside SailbotDB::storeAis; the uint32 id is
cast to int64 (BSON forbids unsigned integers). -/
def aisShipSubDoc (ais_ship : AisShipReading) : FlatDoc :=
  [("id", .int64 (toSigned 64 ais_ship.id)),
   ("latitude", .double ais_ship.latitude),
   ("longitude", .double ais_ship.longitude),
   ("sog", .double ais_ship.sog),
   ("cog", .double ais_ship.cog),
   ("rot", .double ais_ship.rot),
   ("width", .double ais_ship.width),
   ("length", .double ais_ship.length)]

/-- Outer document built by SailbotDB::storeAis: a ships array of per-ship
sub-documents, then the timestamp. -/
def aisShipsDoc (ais_ships_pb : List AisShipReading) (timestamp : String) :
    BsonDoc :=
  [("ships", .array (ais_ships_pb.map aisShipSubDoc)),
   ("timestamp", .scalar (.str timestamp))]

/-- SailbotDB::storeAis: build the AIS document and insert it into the
ais_ships collection. -/
def storeAis (ack : Nat → Bool) (ais_ships_pb : List AisShipReading)
    (timestamp : String) (s : DBState) : Bool × DBState :=
  insertOne ack COLLECTION_AIS_SHIPS (aisShipsDoc ais_ships_pb timestamp) s

/-- Per-sensor sub-document built inside SailbotDB::storeGenericSensors; both
uint32 fields are cast to int64. -/
def genericSubDoc (generic : GenericSensorReading) : FlatDoc :=
  [("id", .int64 (toSigned 64 generic.id)),
   ("data", .int64 (toSigned 64 generic.data))]

/-- Outer document built by SailbotDB::storeGenericSensors. -/
def genericDoc (generic_pb : List GenericSensorReading) (timestamp : String) :
    BsonDoc :=
  [("genericSensors", .array (generic_pb.map genericSubDoc)),
   ("timestamp", .scalar (.str timestamp))]

/-- SailbotDB::storeGenericSensors. -/
def storeGenericSensors (ack : Nat → Bool)
    (generic_pb : List GenericSensorReading) (timestamp : String)
    (s : DBState) : Bool × DBState :=
  insertOne ack COLLECTION_DATA_SENSORS (genericDoc generic_pb timestamp) s

/-- Per-battery sub-document built inside SailbotDB::storeBatteries. -/
def batterySubDoc (battery : BatteryReading) : FlatDoc :=
  [("voltage", .double battery.voltage),
   ("current", .double battery.current)]

/-- Outer document built by SailbotDB::storeBatteries. -/
def batteriesDoc (battery_pb : List BatteryReading) (timestamp : String) :
    BsonDoc :=
  [("batteries", .array (battery_pb.map batterySubDoc)),
   ("timestamp", .scalar (.str timestamp))]

/-- SailbotDB::storeBatteries. -/
def storeBatteries (ack : Nat → Bool) (battery_pb : List BatteryReading)
    (timestamp : String) (s : DBState) : Bool × DBState :=
  insertOne ack COLLECTION_BATTERIES (batteriesDoc battery_pb timestamp) s

/-- Per-sensor sub-document built inside SailbotDB::storeWindSensors; the
direction is narrowed with static_cast<int16_t>. -/
def windSubDoc (wind_sensor : WindSensorReading) : FlatDoc :=
  [("speed", .double wind_sensor.speed),
   ("direction", .int32 (wrapToInt16 wind_sensor.direction))]

/-- Outer document built by SailbotDB::storeWindSensors. -/
def windDoc (wind_pb : List WindSensorReading) (timestamp : String) :
    BsonDoc :=
  [("windSensors", .array (wind_pb.map windSubDoc)),
   ("timestamp", .scalar (.str timestamp))]

/-- SailbotDB::storeWindSensors. -/
def storeWindSensors (ack : Nat → Bool) (wind_pb : List WindSensorReading)
    (timestamp : String) (s : DBState) : Bool × DBState :=
  insertOne ack COLLECTION_WIND_SENSORS (windDoc wind_pb timestamp) s

/-- Per-waypoint sub-document built inside SailbotDB::storePathSensors. -/
def waypointSubDoc (waypoint : Waypoint) : FlatDoc :=
  [("latitude", .double waypoint.latitude),
   ("longitude", .double waypoint.longitude)]

/-- Outer document built by SailbotDB::storePathSensors. -/
def pathDoc (local_path_pb : PathReading) (timestamp : String) : BsonDoc :=
  [("waypoints", .array (local_path_pb.waypoints.map waypointSubDoc)),
   ("timestamp", .scalar (.str timestamp))]

/-- SailbotDB::storePathSensors. -/
def storePathSensors (ack : Nat → Bool) (local_path_pb : PathReading)
    (timestamp : String) (s : DBState) : Bool × DBState :=
  insertOne ack COLLECTION_LOCAL_PATH (pathDoc local_path_pb timestamp) s

/-- SailbotDB::storeNewSensors: extract the timestamp, then run the six
category serializers in order with C++ short-circuit conjunction. -/
def storeNewSensors (ack : Nat → Bool) (sensors_pb : Sensors)
    (new_info : RcvdMsgInfo) (s : DBState) : Bool × DBState :=
  let timestamp := new_info.timestamp_
  let r1 := storeGps ack sensors_pb.gps timestamp s
  if !r1.1 then (false, r1.2) else
  let r2 := storeAis ack sensors_pb.ais_ships timestamp r1.2
  if !r2.1 then (false, r2.2) else
  let r3 := storeGenericSensors ack sensors_pb.data_sensors timestamp r2.2
  if !r3.1 then (false, r3.2) else
  let r4 := storeBatteries ack sensors_pb.batteries timestamp r3.2
  if !r4.1 then (false, r4.2) else
  let r5 := storeWindSensors ack sensors_pb.wind_sensors timestamp r4.2
  if !r5.1 then (false, r5.2) else
  storePathSensors ack sensors_pb.local_path_data timestamp r5.2

/-- The six (collection, document) pairs of one snapshot, in the fixed order
the coordinator attempts them. -/
def categoryEntries (sensors_pb : Sensors) (timestamp : String) :
    List (String × BsonDoc) :=
  [(COLLECTION_GPS, gpsDoc sensors_pb.gps timestamp),
   (COLLECTION_AIS_SHIPS, aisShipsDoc sensors_pb.ais_ships timestamp),
   (COLLECTION_DATA_SENSORS, genericDoc sensors_pb.data_sensors timestamp),
   (COLLECTION_BATTERIES, batteriesDoc sensors_pb.batteries timestamp),
   (COLLECTION_WIND_SENSORS, windDoc sensors_pb.wind_sensors timestamp),
   (COLLECTION_LOCAL_PATH, pathDoc sensors_pb.local_path_data timestamp)]

/-- Sequential short-circuit insertion of a list of (collection, document)
pairs: the generic shape of the coordinator's conjunction chain. -/
def runSeq (ack : Nat → Bool) : List (String × BsonDoc) → DBState →
    Bool × DBState
  | [], s => (true, s)
  | e :: rest, s =>
    let r := insertOne ack e.1 e.2 s
    if r.1 then runSeq ack rest r.2 else (false, r.2)

/-- SailbotDB::testConnection: the underlying ping either succeeds or raises
an exception (modelled as Except with the exception message); the catch-all
converts any exception into a false result. -/
def testConnection (ping : Except String Unit) : Bool :=
  match ping with
  | .ok _ => true
  | .error _ => false

/-- The constructed persistence object: logical database name plus the pool
built from the parsed connection string. -/
structure SailbotDBHandle where
  db_name_ : String
  conn_str : String
deriving DecidableEq, Repr

/-- SailbotDB::SailbotDB: mongocxx::uri parses the connection string (the
parser belongs to the external driver, so it is a parameter); a parse error
is an exception escaping the constructor, so construction returns Except.
On success the pool is built and the handle exists. -/
def mkSailbotDB (parseUri : String → Except String Unit) (db_name : String)
    (mongodb_conn_str : String) : Except String SailbotDBHandle :=
  match parseUri mongodb_conn_str with
  | .ok _ => .ok ⟨db_name, mongodb_conn_str⟩
  | .error e => .error e

/-- Snapshot of the spec's example scenario in section 8: one GPS reading,
one AIS ship with the maximum uint32 id, all other lists empty. -/
def exampleSensors : Sensors :=
  { gps := ⟨49.1, -123.1, 5.0, 180.0⟩
    ais_ships := [⟨4294967295, 1, 2, 3, 4, 5, 6, 7⟩]
    data_sensors := []
    batteries := []
    wind_sensors := []
    local_path_data := ⟨[]⟩ }

/-- Receipt metadata of the spec's example scenario. -/
def exampleInfo : RcvdMsgInfo := ⟨"2024-01-01T00:00:00Z"⟩

/-- A minimal snapshot (all numeric fields zero, all lists empty) used to
instantiate universally quantified theorems on concrete data. -/
def tinySensors : Sensors :=
  { gps := ⟨0, 0, 0, 0⟩
    ais_ships := []
    data_sensors := []
    batteries := []
    wind_sensors := []
    local_path_data := ⟨[]⟩ }

/-- Receipt metadata used together with tinySensors. -/
def tinyInfo : RcvdMsgInfo := ⟨"t0"⟩

/-- The empty backing store. -/
def emptyDB : DBState := ⟨[], 0⟩

/-- The coordinator is the short-circuit sequential run of the six category
entries, in order, starting from the given store state. -/
theorem storeNewSensors_eq_runSeq (ack : Nat → Bool) (sensors_pb : Sensors)
    (new_info : RcvdMsgInfo) (s : DBState) :
    storeNewSensors ack sensors_pb new_info s =
      runSeq ack (categoryEntries sensors_pb new_info.timestamp_) s := by
  by_cases h1 : ack s.tick <;>
  by_cases h2 : ack (s.tick + 1) <;>
  by_cases h3 : ack (s.tick + 2) <;>
  by_cases h4 : ack (s.tick + 3) <;>
  by_cases h5 : ack (s.tick + 4) <;>
  by_cases h6 : ack (s.tick + 5) <;>
  simp [storeNewSensors, categoryEntries, runSeq, storeGps, storeAis,
    storeGenericSensors, storeBatteries, storeWindSensors, storePathSensors,
    insertOne, h1, h2, h3, h4, h5, h6]

/-- If the first k inserts are acknowledged and insert k is not, the
sequential run stops right after insert k: it reports false, commits exactly
the first k documents, and attempts exactly k + 1 inserts. -/
theorem runSeq_fail_char (ack : Nat → Bool) :
    ∀ (l : List (String × BsonDoc)) (s : DBState) (k : Nat), k < l.length →
      (∀ i, i < k → ack (s.tick + i) = true) → ack (s.tick + k) = false →
      runSeq ack l s = (false, ⟨s.docs ++ l.take k, s.tick + k + 1⟩) := by
  intro l
  induction l with
  | nil => intro s k hk; simp at hk
  | cons e rest ih =>
    intro s k hk hsucc hfail
    cases k with
    | zero =>
      have h0 : ack s.tick = false := by simpa using hfail
      simp [runSeq, insertOne, h0]
    | succ k' =>
      have h0 : ack s.tick = true := by simpa using hsucc 0 (Nat.succ_pos k')
      have step : runSeq ack (e :: rest) s =
          runSeq ack rest ⟨s.docs ++ [e], s.tick + 1⟩ := by
        simp [runSeq, insertOne, h0]
      rw [step]
      have hk' : k' < rest.length := by simpa using hk
      have hsucc' : ∀ i, i < k' →
          ack ((⟨s.docs ++ [e], s.tick + 1⟩ : DBState).tick + i) = true := by
        intro i hi
        have := hsucc (i + 1) (by omega)
        simpa [Nat.add_assoc, Nat.add_comm 1 i] using this
      have hfail' : ack ((⟨s.docs ++ [e], s.tick + 1⟩ : DBState).tick + k') = false := by
        have := hfail
        simpa [Nat.add_assoc, Nat.add_comm 1 k'] using this
      rw [ih ⟨s.docs ++ [e], s.tick + 1⟩ k' hk' hsucc' hfail']
      simp [List.append_assoc]
      omega

/-- If every insert is acknowledged, the sequential run commits every
document and reports true. -/
theorem runSeq_all_ack (ack : Nat → Bool) :
    ∀ (l : List (String × BsonDoc)) (s : DBState),
      (∀ i, i < l.length → ack (s.tick + i) = true) →
      runSeq ack l s = (true, ⟨s.docs ++ l, s.tick + l.length⟩) := by
  intro l
  induction l with
  | nil => intro s _; simp [runSeq]
  | cons e rest ih =>
    intro s hsucc
    have h0 : ack s.tick = true := by simpa using hsucc 0 (by simp)
    have step : runSeq ack (e :: rest) s =
        runSeq ack rest ⟨s.docs ++ [e], s.tick + 1⟩ := by
      simp [runSeq, insertOne, h0]
    rw [step, ih ⟨s.docs ++ [e], s.tick + 1⟩ ?_]
    · simp [List.append_assoc]
      omega
    · intro i hi
      have := hsucc (i + 1) (by simpa using hi)
      simpa [Nat.add_assoc, Nat.add_comm 1 i] using this

/-- Every document present after a sequential run was either already in the
store or is one of the run's (collection, document) entries. -/
theorem runSeq_docs_subset (ack : Nat → Bool) :
    ∀ (l : List (String × BsonDoc)) (s : DBState)
      (cd : String × BsonDoc), cd ∈ (runSeq ack l s).2.docs →
      cd ∈ s.docs ∨ cd ∈ l := by
  intro l
  induction l with
  | nil => intro s cd h; exact Or.inl (by simpa [runSeq] using h)
  | cons e rest ih =>
    intro s cd h
    by_cases h0 : ack s.tick
    · have step : runSeq ack (e :: rest) s =
          runSeq ack rest ⟨s.docs ++ [e], s.tick + 1⟩ := by
        simp [runSeq, insertOne, h0]
      rw [step] at h
      rcases ih ⟨s.docs ++ [e], s.tick + 1⟩ cd h with h1 | h2
      · rcases List.mem_append.mp h1 with h3 | h4
        · exact Or.inl h3
        · exact Or.inr (by simpa using Or.inl (by simpa using h4))
      · exact Or.inr (List.mem_cons_of_mem e h2)
    · have step : runSeq ack (e :: rest) s = (false, ⟨s.docs, s.tick + 1⟩) := by
        simp [runSeq, insertOne, h0]
      rw [step] at h
      exact Or.inl h

/-- A true result from the sequential run means every insert along the list
was acknowledged. -/
theorem runSeq_true_ack (ack : Nat → Bool) :
    ∀ (l : List (String × BsonDoc)) (s : DBState),
      (runSeq ack l s).1 = true →
      ∀ i, i < l.length → ack (s.tick + i) = true := by
  intro l
  induction l with
  | nil => intro s _ i hi; simp at hi
  | cons e rest ih =>
    intro s h i hi
    by_cases h0 : ack s.tick
    · have step : runSeq ack (e :: rest) s =
          runSeq ack rest ⟨s.docs ++ [e], s.tick + 1⟩ := by
        simp [runSeq, insertOne, h0]
      cases i with
      | zero => simpa using h0
      | succ i' =>
        rw [step] at h
        have := ih ⟨s.docs ++ [e], s.tick + 1⟩ h i' (by simpa using hi)
        simpa [Nat.add_assoc, Nat.add_comm 1 i'] using this
    · have step : runSeq ack (e :: rest) s = (false, ⟨s.docs, s.tick + 1⟩) := by
        simp [runSeq, insertOne, h0]
      rw [step] at h
      simp at h

/-- C1: storeNewSensors invokes the six category serializers in the fixed
order GPS, AIS, generic, batteries, wind, path and short-circuits on the
first failure: if serializer k fails after the first k succeeded, the call
returns false, exactly the k documents of the categories before the failing
one are committed (no rollback), and only k + 1 inserts were attempted, so
the serializers after the failing one are never invoked. -/
theorem storeNewSensors_short_circuit (ack : Nat → Bool) (sensors_pb : Sensors)
    (new_info : RcvdMsgInfo) (s : DBState) (k : Nat) (hk : k < 6)
    (hsucc : ∀ i, i < k → ack (s.tick + i) = true)
    (hfail : ack (s.tick + k) = false) :
    storeNewSensors ack sensors_pb new_info s =
      (false, ⟨s.docs ++ (categoryEntries sensors_pb new_info.timestamp_).take k,
               s.tick + k + 1⟩) := by
  rw [storeNewSensors_eq_runSeq]
  exact runSeq_fail_char ack _ s k (by simpa [categoryEntries] using hk)
    hsucc hfail

/-- Witness for C1: GPS acknowledged, AIS refused, starting from the empty
store; the call fails, only the GPS document is committed, and only two
inserts were attempted. -/
theorem storeNewSensors_short_circuit_witness :
    storeNewSensors (fun n => n == 0) exampleSensors exampleInfo emptyDB =
      (false, ⟨[(COLLECTION_GPS, gpsDoc exampleSensors.gps exampleInfo.timestamp_)], 2⟩) := by
  have h := storeNewSensors_short_circuit (fun n => n == 0) exampleSensors
    exampleInfo emptyDB 1 (by omega)
    (fun i hi => by
      have hi0 : i = 0 := by omega
      simp [hi0, emptyDB])
    (by simp [emptyDB])
  simpa [categoryEntries, emptyDB] using h

/-- C2: every document present after a storeNewSensors call either predates
the call or carries the caller-supplied receipt timestamp in a field named
timestamp, so all documents persisted by one call share that timestamp. -/
theorem storeNewSensors_timestamp_join_key (ack : Nat → Bool)
    (sensors_pb : Sensors) (new_info : RcvdMsgInfo) (s : DBState)
    (cd : String × BsonDoc)
    (h : cd ∈ (storeNewSensors ack sensors_pb new_info s).2.docs) :
    cd ∈ s.docs ∨
      ("timestamp", BsonValue.scalar (.str new_info.timestamp_)) ∈ cd.2 := by
  rw [storeNewSensors_eq_runSeq] at h
  rcases runSeq_docs_subset ack _ s cd h with h1 | h2
  · exact Or.inl h1
  · right
    simp only [categoryEntries, List.mem_cons, List.not_mem_nil, or_false] at h2
    rcases h2 with h3 | h3 | h3 | h3 | h3 | h3 <;>
      simp [h3, gpsDoc, aisShipsDoc, genericDoc, batteriesDoc, windDoc, pathDoc]

/-- Witness for C2: the GPS document written by an all-acknowledged run over
the empty store carries the receipt timestamp. -/
theorem storeNewSensors_timestamp_join_key_witness :
    (COLLECTION_GPS, gpsDoc tinySensors.gps tinyInfo.timestamp_) ∈ emptyDB.docs ∨
      ("timestamp", BsonValue.scalar (.str tinyInfo.timestamp_)) ∈
        (COLLECTION_GPS, gpsDoc tinySensors.gps tinyInfo.timestamp_).2 :=
  storeNewSensors_timestamp_join_key (fun _ => true) tinySensors tinyInfo
    emptyDB (COLLECTION_GPS, gpsDoc tinySensors.gps tinyInfo.timestamp_)
    (by decide)

/-- C3: the connectivity probe is a total boolean function of the underlying
ping outcome: it returns true exactly when the ping succeeds, and any
exception from the ping is converted into a false result, never propagated. -/
theorem testConnection_never_throws (ping : Except String Unit) :
    (testConnection ping = true ↔ ping = Except.ok ()) ∧
    (testConnection ping = false ↔ ∃ e, ping = Except.error e) := by
  cases ping with
  | ok u => cases u; simp [testConnection]
  | error e => simp [testConnection]

/-- C7: a true result from storeNewSensors requires every one of the six
category inserts to have been acknowledged by the store; a failed insert can
never yield a true result. -/
theorem storeNewSensors_no_false_success (ack : Nat → Bool)
    (sensors_pb : Sensors) (new_info : RcvdMsgInfo) (s : DBState)
    (h : (storeNewSensors ack sensors_pb new_info s).1 = true) :
    ∀ i, i < 6 → ack (s.tick + i) = true := by
  rw [storeNewSensors_eq_runSeq] at h
  have hall := runSeq_true_ack ack _ s h
  intro i hi
  exact hall i (by simpa [categoryEntries] using hi)

/-- Witness for C7: an all-acknowledging store yields a true result, and the
theorem instantiated at the sixth insert confirms its acknowledgment. -/
theorem storeNewSensors_no_false_success_witness :
    (fun (_ : Nat) => true) (emptyDB.tick + 5) = true :=
  storeNewSensors_no_false_success (fun _ => true) tinySensors tinyInfo
    emptyDB (by decide) 5 (by omega)

/-- C4 counterexample: on the spec's example snapshot (empty generic,
battery, wind and path lists) an all-acknowledged persistence call does not
write exactly two documents: the serializers insert a document for every
category, empty list or not, so six documents are written. -/
theorem example_scenario_not_two_documents :
    (storeNewSensors (fun _ => true) exampleSensors exampleInfo emptyDB).2.docs.length ≠ 2 := by
  decide

/-- C4 amended: on the spec's example snapshot an all-acknowledged call
returns true and writes exactly six documents, one per category in the fixed
order; the gps and ais_ships documents carry timestamp
2024-01-01T00:00:00Z, the AIS ship id is stored as the 64-bit value
4294967295, and the four documents of the empty categories hold empty
arrays plus the same timestamp. -/
theorem example_scenario_six_documents :
    storeNewSensors (fun _ => true) exampleSensors exampleInfo emptyDB =
      (true, ⟨categoryEntries exampleSensors "2024-01-01T00:00:00Z", 6⟩) ∧
    (categoryEntries exampleSensors "2024-01-01T00:00:00Z").length = 6 ∧
    (categoryEntries exampleSensors "2024-01-01T00:00:00Z").map Prod.fst =
      [COLLECTION_GPS, COLLECTION_AIS_SHIPS, COLLECTION_DATA_SENSORS,
       COLLECTION_BATTERIES, COLLECTION_WIND_SENSORS, COLLECTION_LOCAL_PATH] ∧
    ("timestamp", BsonValue.scalar (.str "2024-01-01T00:00:00Z")) ∈
      gpsDoc exampleSensors.gps "2024-01-01T00:00:00Z" ∧
    aisShipsDoc exampleSensors.ais_ships "2024-01-01T00:00:00Z" =
      [("ships", .array [aisShipSubDoc ⟨4294967295, 1, 2, 3, 4, 5, 6, 7⟩]),
       ("timestamp", .scalar (.str "2024-01-01T00:00:00Z"))] ∧
    ("id", BsonScalar.int64 4294967295) ∈
      aisShipSubDoc ⟨4294967295, 1, 2, 3, 4, 5, 6, 7⟩ ∧
    genericDoc exampleSensors.data_sensors "2024-01-01T00:00:00Z" =
      [("genericSensors", .array []),
       ("timestamp", .scalar (.str "2024-01-01T00:00:00Z"))] ∧
    batteriesDoc exampleSensors.batteries "2024-01-01T00:00:00Z" =
      [("batteries", .array []),
       ("timestamp", .scalar (.str "2024-01-01T00:00:00Z"))] ∧
    windDoc exampleSensors.wind_sensors "2024-01-01T00:00:00Z" =
      [("windSensors", .array []),
       ("timestamp", .scalar (.str "2024-01-01T00:00:00Z"))] ∧
    pathDoc exampleSensors.local_path_data "2024-01-01T00:00:00Z" =
      [("waypoints", .array []),
       ("timestamp", .scalar (.str "2024-01-01T00:00:00Z"))] := by
  refine ⟨rfl, rfl, rfl, ?_, rfl, ?_, rfl, rfl, rfl, rfl⟩
  · simp [exampleSensors, gpsDoc]
  · have h : toSigned 64 4294967295 = (4294967295 : Int) := by decide
    simp [aisShipSubDoc, h]

/-- The two's-complement reinterpretation of a value below 2^32 as a signed
64-bit integer is the value itself. -/
theorem toSigned_64_of_lt (v : Nat) (h : v < 2 ^ 32) :
    toSigned 64 v = (v : Int) := by
  have h1 : v % 2 ^ 64 = v := Nat.mod_eq_of_lt (lt_of_lt_of_le h (by norm_num))
  have h2 : v < 2 ^ (64 - 1) := lt_of_lt_of_le h (by norm_num)
  simp only [toSigned, h1, if_pos h2]

/-- C5: for AIS-ship ids and generic-sensor ids and data values below 2^32
(the uint32 domain), the persisted int64 field equals the original numeric
value exactly: the widening cast is lossless. -/
theorem widened_ids_round_trip (ais_ship : AisShipReading)
    (generic : GenericSensorReading) (h1 : ais_ship.id < 2 ^ 32)
    (h2 : generic.id < 2 ^ 32) (h3 : generic.data < 2 ^ 32) :
    aisShipSubDoc ais_ship =
      [("id", .int64 (ais_ship.id : Int)),
       ("latitude", .double ais_ship.latitude),
       ("longitude", .double ais_ship.longitude),
       ("sog", .double ais_ship.sog),
       ("cog", .double ais_ship.cog),
       ("rot", .double ais_ship.rot),
       ("width", .double ais_ship.width),
       ("length", .double ais_ship.length)] ∧
    genericSubDoc generic =
      [("id", .int64 (generic.id : Int)),
       ("data", .int64 (generic.data : Int))] := by
  constructor
  · simp [aisShipSubDoc, toSigned_64_of_lt _ h1]
  · simp [genericSubDoc, toSigned_64_of_lt _ h2, toSigned_64_of_lt _ h3]

/-- Witness for C5 at the maximum uint32 value 4294967295. -/
theorem widened_ids_round_trip_witness :
    aisShipSubDoc ⟨4294967295, 1, 2, 3, 4, 5, 6, 7⟩ =
      [("id", .int64 ((4294967295 : Nat) : Int)), ("latitude", .double 1),
       ("longitude", .double 2), ("sog", .double 3), ("cog", .double 4),
       ("rot", .double 5), ("width", .double 6), ("length", .double 7)] ∧
    genericSubDoc ⟨4294967295, 4294967295⟩ =
      [("id", .int64 ((4294967295 : Nat) : Int)),
       ("data", .int64 ((4294967295 : Nat) : Int))] :=
  widened_ids_round_trip ⟨4294967295, 1, 2, 3, 4, 5, 6, 7⟩ ⟨4294967295, 4294967295⟩
    (by norm_num) (by norm_num) (by norm_num)

/-- C6: the persisted wind direction is the source value narrowed to signed
16 bits: it always lies in [-2^15, 2^15) and differs from the source value
by a multiple of 2^16, i.e. it is the deterministic modular wrap, never an
error. -/
theorem wind_direction_wraps (wind_sensor : WindSensorReading) :
    windSubDoc wind_sensor =
      [("speed", .double wind_sensor.speed),
       ("direction", .int32 (wrapToInt16 wind_sensor.direction))] ∧
    -(2 ^ 15) ≤ wrapToInt16 wind_sensor.direction ∧
    wrapToInt16 wind_sensor.direction < 2 ^ 15 ∧
    (2 ^ 16 : Int) ∣ (wrapToInt16 wind_sensor.direction - wind_sensor.direction) := by
  refine ⟨rfl, ?_, ?_, ?_⟩
  · have h0 : (0 : Int) ≤ (wind_sensor.direction + 2 ^ 15) % 2 ^ 16 :=
      Int.emod_nonneg _ (by norm_num)
    simp only [wrapToInt16]
    linarith
  · have h1 : (wind_sensor.direction + 2 ^ 15) % 2 ^ 16 < 2 ^ 16 :=
      Int.emod_lt_of_pos _ (by norm_num)
    simp only [wrapToInt16]
    linarith
  · refine ⟨-((wind_sensor.direction + 2 ^ 15) / 2 ^ 16), ?_⟩
    simp only [wrapToInt16, Int.emod_def]
    ring

/-- C8: the constructor's result is the image of the connection-string parse:
a parse error surfaces as that same error from construction (fail fast), and
only a successful parse yields a constructed handle. -/
theorem mkSailbotDB_fail_fast (parseUri : String → Except String Unit)
    (db_name mongodb_conn_str : String) :
    mkSailbotDB parseUri db_name mongodb_conn_str =
      (parseUri mongodb_conn_str).map
        (fun _ => ⟨db_name, mongodb_conn_str⟩) := by
  cases h : parseUri mongodb_conn_str <;> simp [mkSailbotDB, h, Except.map]

/-- C9: storeAis performs exactly one insert: when acknowledged exactly one
document is appended (to the ais_ships collection), otherwise none; the
document is a ships array of per-ship sub-documents followed by one outer
timestamp field, and no per-ship sub-document contains a timestamp field. -/
theorem storeAis_single_document (ack : Nat → Bool)
    (ais_ships_pb : List AisShipReading) (timestamp : String) (s : DBState) :
    storeAis ack ais_ships_pb timestamp s =
      (ack s.tick,
       ⟨s.docs ++ (if ack s.tick then
          [(COLLECTION_AIS_SHIPS, aisShipsDoc ais_ships_pb timestamp)] else []),
        s.tick + 1⟩) ∧
    aisShipsDoc ais_ships_pb timestamp =
      [("ships", BsonValue.array (ais_ships_pb.map aisShipSubDoc)),
       ("timestamp", BsonValue.scalar (.str timestamp))] ∧
    ∀ ais_ship : AisShipReading,
      "timestamp" ∉ (aisShipSubDoc ais_ship).map Prod.fst := by
  refine ⟨?_, rfl, ?_⟩
  · by_cases h : ack s.tick <;> simp [storeAis, insertOne, h]
  · intro ais_ship
    simp [aisShipSubDoc]

/-- C10: each list-category document stores its array under its fixed field
name (ships, genericSensors, batteries, windSensors, waypoints) followed by
the timestamp field, and each AIS per-ship sub-document uses the field names
id, latitude, longitude, sog, cog, rot, width, length in that order. -/
theorem fixed_field_names (ais_ships_pb : List AisShipReading)
    (generic_pb : List GenericSensorReading)
    (battery_pb : List BatteryReading) (wind_pb : List WindSensorReading)
    (local_path_pb : PathReading) (timestamp : String) :
    (aisShipsDoc ais_ships_pb timestamp).map Prod.fst = ["ships", "timestamp"] ∧
    (genericDoc generic_pb timestamp).map Prod.fst = ["genericSensors", "timestamp"] ∧
    (batteriesDoc battery_pb timestamp).map Prod.fst = ["batteries", "timestamp"] ∧
    (windDoc wind_pb timestamp).map Prod.fst = ["windSensors", "timestamp"] ∧
    (pathDoc local_path_pb timestamp).map Prod.fst = ["waypoints", "timestamp"] ∧
    ∀ ais_ship : AisShipReading, (aisShipSubDoc ais_ship).map Prod.fst =
      ["id", "latitude", "longitude", "sog", "cog", "rot", "width", "length"] :=
  ⟨rfl, rfl, rfl, rfl, rfl, fun _ => rfl⟩

end SailbotDB
